import Mathlib

/-
Verification of the habit-tracking frontend's pure logic against its
specification.

Shallow embedding conventions:
* Timestamps are modelled as natural numbers of milliseconds since the Unix
  epoch (the JavaScript `Date.getTime()` value; the application only ever
  handles post-1970 dates).
* `date-fns` helpers used by `src/utils/timeUtils.ts` are embedded by their
  documented semantics: `isPast d` is `d.getTime() < Date.now()`,
  `differenceInMinutes a b` truncates `(a - b) / 60000` toward zero, and
  `differenceInSeconds a b` truncates `(a - b) / 1000` toward zero.  In the
  non-past branch the difference is nonnegative, so truncation coincides with
  Lean's natural-number division.
* The React-Query cache entry for key `['all-habit-completions', today]` is
  an optional list (absent = `undefined`); JavaScript truthiness of that
  value is `Option.isSome` (arrays, including empty ones, are truthy).
-/

namespace HabitFrontend

/-! ## Data model: `TimeRemaining` from `src/utils/timeUtils.ts` -/

structure TimeRemaining where
  days : Nat
  hours : Nat
  minutes : Nat
  seconds : Nat
  isOverdue : Bool
  totalMinutes : Nat
deriving DecidableEq, Repr

/-- Embedding of `calculateTimeRemaining` (timeUtils.ts lines 12-41).
Arguments are the deadline and evaluation time in epoch milliseconds. -/
def calculateTimeRemaining (deadline now : Nat) : TimeRemaining :=
  if deadline < now then
    { days := 0, hours := 0, minutes := 0, seconds := 0,
      isOverdue := true, totalMinutes := 0 }
  else
    let totalMinutes := (deadline - now) / 60000
    let days := totalMinutes / (24 * 60)
    let hours := (totalMinutes % (24 * 60)) / 60
    let minutes := totalMinutes % 60
    let seconds := ((deadline - now) / 1000) % 60
    { days := days, hours := hours, minutes := minutes, seconds := seconds,
      isOverdue := false, totalMinutes := totalMinutes }

/-- Embedding of `formatTimeRemaining` (timeUtils.ts lines 43-64). -/
def formatTimeRemaining (t : TimeRemaining) : String :=
  if t.isOverdue then
    "Overdue"
  else if t.days > 0 then
    if t.days = 1 then
      toString t.hours ++ "h " ++ toString t.minutes ++ "m"
    else
      toString t.days ++ "d " ++ toString t.hours ++ "h"
  else if t.hours > 0 then
    toString t.hours ++ "h " ++ toString t.minutes ++ "m"
  else if t.minutes > 0 then
    toString t.minutes ++ "m " ++ toString t.seconds ++ "s"
  else
    toString t.seconds ++ "s"

/-- Embedding of `getTimeUrgencyColor` (timeUtils.ts lines 66-84). -/
def getTimeUrgencyColor (t : TimeRemaining) : String :=
  if t.isOverdue then
    "text-red-500"
  else if t.totalMinutes ≤ 60 then
    "text-red-500"
  else if t.totalMinutes ≤ 24 * 60 then
    "text-orange-500"
  else if t.totalMinutes ≤ 3 * 24 * 60 then
    "text-yellow-600"
  else
    "text-green-600"

/-! ## Theorems about the time utilities -/

/-- C4: for every deadline strictly before the evaluation time,
`calculateTimeRemaining` reports overdue with every numeric field zero. -/
theorem calculateTimeRemaining_overdue (deadline now : Nat)
    (h : deadline < now) :
    calculateTimeRemaining deadline now =
      { days := 0, hours := 0, minutes := 0, seconds := 0,
        isOverdue := true, totalMinutes := 0 } := by
  simp [calculateTimeRemaining, h]

/-- C4 witness: evaluated at deadline 09:00, now 10:00 on 2024-01-01 (in
epoch milliseconds). -/
theorem calculateTimeRemaining_overdue_witness :
    calculateTimeRemaining 1704099600000 1704103200000 =
      { days := 0, hours := 0, minutes := 0, seconds := 0,
        isOverdue := true, totalMinutes := 0 } :=
  calculateTimeRemaining_overdue 1704099600000 1704103200000 (by decide)

/-- C5: for every deadline not in the past, the result decomposes the
remaining duration exactly as specified, and for a deadline exactly `N`
whole minutes ahead (`N > 0`) the total is `N` and the day/hour/minute
fields recombine to `N`. -/
theorem calculateTimeRemaining_decomposition (deadline now : Nat)
    (h : ¬ deadline < now) :
    ((calculateTimeRemaining deadline now).totalMinutes
        = (deadline - now) / 60000
      ∧ (calculateTimeRemaining deadline now).days
        = (calculateTimeRemaining deadline now).totalMinutes / 1440
      ∧ (calculateTimeRemaining deadline now).hours
        = ((calculateTimeRemaining deadline now).totalMinutes % 1440) / 60
      ∧ (calculateTimeRemaining deadline now).minutes
        = (calculateTimeRemaining deadline now).totalMinutes % 60
      ∧ (calculateTimeRemaining deadline now).seconds
        = ((deadline - now) / 1000) % 60
      ∧ (calculateTimeRemaining deadline now).isOverdue = false)
    ∧ ∀ N : Nat, 0 < N → deadline = now + N * 60000 →
        (calculateTimeRemaining deadline now).totalMinutes = N
        ∧ (calculateTimeRemaining deadline now).days * 1440
            + (calculateTimeRemaining deadline now).hours * 60
            + (calculateTimeRemaining deadline now).minutes = N := by
  refine ⟨by simp [calculateTimeRemaining, if_neg h], ?_⟩
  intro N hN hdl
  subst hdl
  simp only [calculateTimeRemaining, if_neg h, Nat.add_sub_cancel_left]
  omega

/-- C5 witness: a deadline exactly 90 minutes after now. -/
theorem calculateTimeRemaining_decomposition_witness :
    (calculateTimeRemaining (1704103200000 + 90 * 60000) 1704103200000).totalMinutes = 90
    ∧ (calculateTimeRemaining (1704103200000 + 90 * 60000) 1704103200000).days * 1440
        + (calculateTimeRemaining (1704103200000 + 90 * 60000) 1704103200000).hours * 60
        + (calculateTimeRemaining (1704103200000 + 90 * 60000) 1704103200000).minutes = 90 :=
  (calculateTimeRemaining_decomposition (1704103200000 + 90 * 60000) 1704103200000
    (by decide)).2 90 (by decide) rfl

/-- Helper: a string append whose right operand is nonempty is nonempty. -/
theorem append_ne_empty_right (a b : String) (hb : b.data ≠ []) :
    a ++ b ≠ "" := by
  intro h
  apply hb
  have hd := congrArg String.data h
  rw [String.data_append] at hd
  exact (List.append_eq_nil.mp hd).2

/-- C6: `formatTimeRemaining` returns exactly the string of the branch the
fields select — "Overdue" when overdue, hours/minutes when `days = 1`,
days/hours when `days > 1`, hours/minutes when `days = 0` and `hours ≥ 1`,
minutes/seconds when `days = hours = 0` and `minutes ≥ 1`, seconds
otherwise — and never the empty string for a non-overdue input. -/
theorem formatTimeRemaining_spec (t : TimeRemaining) :
    (t.isOverdue = true → formatTimeRemaining t = "Overdue")
    ∧ (t.isOverdue = false →
        ((t.days = 1 →
          formatTimeRemaining t =
            toString t.hours ++ "h " ++ toString t.minutes ++ "m")
        ∧ (1 < t.days →
          formatTimeRemaining t =
            toString t.days ++ "d " ++ toString t.hours ++ "h")
        ∧ (t.days = 0 → 1 ≤ t.hours →
          formatTimeRemaining t =
            toString t.hours ++ "h " ++ toString t.minutes ++ "m")
        ∧ (t.days = 0 → t.hours = 0 → 1 ≤ t.minutes →
          formatTimeRemaining t =
            toString t.minutes ++ "m " ++ toString t.seconds ++ "s")
        ∧ (t.days = 0 → t.hours = 0 → t.minutes = 0 →
          formatTimeRemaining t = toString t.seconds ++ "s")
        ∧ formatTimeRemaining t ≠ "")) := by
  obtain ⟨d, hrs, mins, secs, o, tm⟩ := t
  cases o with
  | true =>
      exact ⟨fun _ => rfl, fun hfalse => Bool.noConfusion hfalse⟩
  | false =>
      refine ⟨fun htrue => Bool.noConfusion htrue, fun _ => ?_⟩
      dsimp only
      refine ⟨?_, ?_, ?_, ?_, ?_, ?_⟩
      · intro hd
        subst hd
        simp [formatTimeRemaining]
      · intro hd
        simp [formatTimeRemaining, show d ≠ 1 by omega, show 0 < d by omega]
      · intro hd hh
        subst hd
        simp [formatTimeRemaining, show 0 < hrs by omega]
      · intro hd hh hm
        subst hd
        subst hh
        simp [formatTimeRemaining, show 0 < mins by omega]
      · intro hd hh hm
        subst hd
        subst hh
        subst hm
        simp [formatTimeRemaining]
      · simp only [formatTimeRemaining]
        split_ifs <;>
          first
            | decide
            | exact append_ne_empty_right _ ("m") (by decide)
            | exact append_ne_empty_right _ ("h") (by decide)
            | exact append_ne_empty_right _ ("s") (by decide)

/-- C6 witness: the `days = 1` branch at a concrete input collapses to
hours and minutes. -/
theorem formatTimeRemaining_spec_witness :
    formatTimeRemaining
      { days := 1, hours := 2, minutes := 3, seconds := 4,
        isOverdue := false, totalMinutes := 1563 } = "2h 3m" := by
  have h :=
    ((formatTimeRemaining_spec
      { days := 1, hours := 2, minutes := 3, seconds := 4,
        isOverdue := false, totalMinutes := 1563 }).2 rfl).1 rfl
  exact h.trans (by decide)

/-- C7: the urgency colour is a step function of `totalMinutes` and the
overdue flag, with the 60-, 1440- and 4320-minute thresholds inclusive of
the lower tier, and every overdue input red. -/
theorem getTimeUrgencyColor_spec (t : TimeRemaining) :
    (t.isOverdue = true → getTimeUrgencyColor t = "text-red-500")
    ∧ (t.isOverdue = false →
        ((t.totalMinutes ≤ 60 → getTimeUrgencyColor t = "text-red-500")
        ∧ (60 < t.totalMinutes → t.totalMinutes ≤ 1440 →
            getTimeUrgencyColor t = "text-orange-500")
        ∧ (1440 < t.totalMinutes → t.totalMinutes ≤ 4320 →
            getTimeUrgencyColor t = "text-yellow-600")
        ∧ (4320 < t.totalMinutes →
            getTimeUrgencyColor t = "text-green-600"))) := by
  obtain ⟨d, hrs, mins, secs, o, tm⟩ := t
  cases o with
  | true =>
      exact ⟨fun _ => rfl, fun hfalse => Bool.noConfusion hfalse⟩
  | false =>
      refine ⟨fun htrue => Bool.noConfusion htrue, fun _ => ?_⟩
      dsimp only
      refine ⟨?_, ?_, ?_, ?_⟩
      · intro h1
        simp [getTimeUrgencyColor, h1]
      · intro h1 h2
        simp [getTimeUrgencyColor, show ¬ tm ≤ 60 by omega, h2]
      · intro h1 h2
        simp [getTimeUrgencyColor, show ¬ tm ≤ 60 by omega,
          show ¬ tm ≤ 24 * 60 by omega, h2]
      · intro h1
        simp [getTimeUrgencyColor, show ¬ tm ≤ 60 by omega,
          show ¬ tm ≤ 24 * 60 by omega, show ¬ tm ≤ 3 * (24 * 60) by omega]

/-- C7 witness: exactly 60 minutes is red (the one-hour tier) and exactly
1440 minutes is orange (the one-day tier). -/
theorem getTimeUrgencyColor_spec_witness :
    getTimeUrgencyColor
      { days := 0, hours := 1, minutes := 0, seconds := 0,
        isOverdue := false, totalMinutes := 60 } = "text-red-500"
    ∧ getTimeUrgencyColor
      { days := 1, hours := 0, minutes := 0, seconds := 0,
        isOverdue := false, totalMinutes := 1440 } = "text-orange-500" :=
  ⟨((getTimeUrgencyColor_spec
      { days := 0, hours := 1, minutes := 0, seconds := 0,
        isOverdue := false, totalMinutes := 60 }).2 rfl).1 (by decide),
   ((getTimeUrgencyColor_spec
      { days := 1, hours := 0, minutes := 0, seconds := 0,
        isOverdue := false, totalMinutes := 1440 }).2 rfl).2.1
      (by decide) (by decide)⟩

/-! ## Data model: today-completions cache entries from `HabitsPage.tsx`

The query with key `['all-habit-completions', today]` caches a list of
records `{habitId, completion}` where `completion` may be `undefined`
(when the habit has no completion today).  A completion carries the
`completed` flag plus the remaining `HabitCompletion` fields that the
optimistic update preserves through the object spread. -/

structure CompletionData where
  completed : Bool
  date : Option String
  value : Option Int
  notes : Option String
deriving DecidableEq, Repr

structure CompletionEntry where
  habitId : String
  completion : Option CompletionData
deriving DecidableEq, Repr

/-- The object spread `{...item.completion, completed}` (HabitsPage.tsx
line 180): spreading `undefined` yields an object with only the
`completed` field. -/
def overwriteCompleted (c : Option CompletionData) (completed : Bool) :
    CompletionData :=
  match c with
  | some cd => { cd with completed := completed }
  | none => { completed := completed, date := none, value := none, notes := none }

/-- The entry rewrite `{...item, completion: {...item.completion, completed}}`
(HabitsPage.tsx lines 177-183). -/
def setEntryCompleted (e : CompletionEntry) (completed : Bool) :
    CompletionEntry :=
  { e with completion := some (overwriteCompleted e.completion completed) }

/-- The pushed entry `{habitId, completion: {completed, date: today}}`
(HabitsPage.tsx lines 190-193). -/
def newCompletionEntry (habitId : String) (completed : Bool)
    (today : String) : CompletionEntry :=
  { habitId := habitId,
    completion := some { completed := completed, date := some today,
                         value := none, notes := none } }

/-- The `setQueryData` updater body for a present cache list (HabitsPage.tsx
lines 175-196): map every matching entry, then append a fresh entry when
`old.find` comes back `undefined`. -/
def updateCompletionsList (old : List CompletionEntry) (habitId : String)
    (completed : Bool) (today : String) : List CompletionEntry :=
  let updatedCompletions := old.map fun item =>
    if item.habitId = habitId then setEntryCompleted item completed else item
  if old.any fun item => item.habitId = habitId then
    updatedCompletions
  else
    updatedCompletions ++ [newCompletionEntry habitId completed today]

/-- The full `setQueryData` updater (HabitsPage.tsx lines 172-197): a falsy
(`undefined`) cache value is returned unchanged. -/
def updateCompletionsCache (old : Option (List CompletionEntry))
    (habitId : String) (completed : Bool) (today : String) :
    Option (List CompletionEntry) :=
  match old with
  | none => none
  | some l => some (updateCompletionsList l habitId completed today)

/-- The context object returned by `onMutate` (HabitsPage.tsx line 204). -/
structure MutationContext where
  previousCompletions : Option (List CompletionEntry)
deriving DecidableEq, Repr

/-- Embedding of `onMutate` (HabitsPage.tsx lines 164-205): snapshot the
cache, write the optimistic value, fire confetti when marking complete.
Returns the new cache value, the context, and whether confetti fired. -/
def onMutate (cache : Option (List CompletionEntry)) (habitId : String)
    (completed : Bool) (today : String) :
    Option (List CompletionEntry) × MutationContext × Bool :=
  (updateCompletionsCache cache habitId completed today,
   { previousCompletions := cache }, completed)

/-- Embedding of `onError` (HabitsPage.tsx lines 206-211): restore the
snapshot when it is truthy (`undefined` is the only falsy cache value; a
list, even empty, is a truthy JavaScript array). -/
def onError (cache : Option (List CompletionEntry))
    (ctx : MutationContext) : Option (List CompletionEntry) :=
  match ctx.previousCompletions with
  | some prev => some prev
  | none => cache

/-- One completion-toggle execution whose network call fails: `onMutate`
runs, then the mutation rejects and `onError` runs on the optimistically
updated cache. -/
def toggleThenFail (cache : Option (List CompletionEntry))
    (habitId : String) (completed : Bool) (today : String) :
    Option (List CompletionEntry) :=
  let r := onMutate cache habitId completed today
  onError r.1 r.2.1

/-! ## Helper lemmas on the optimistic update -/

/-- Mapping the per-entry rewrite over a list with no matching habit id
leaves the list unchanged. -/
theorem map_setCompleted_of_no_match (habitId : String) (completed : Bool)
    (l : List CompletionEntry) (h : ∀ x ∈ l, x.habitId ≠ habitId) :
    (l.map fun item =>
      if item.habitId = habitId then setEntryCompleted item completed
      else item) = l := by
  induction l with
  | nil => rfl
  | cons a as ih =>
      simp only [List.map_cons]
      rw [if_neg (h a (List.mem_cons_self a as)),
        ih fun x hx => h x (List.mem_cons_of_mem a hx)]

/-- When no entry matches, the updater appends the fresh entry at the end
and leaves everything else unchanged. -/
theorem updateCompletionsList_absent (l : List CompletionEntry)
    (habitId : String) (completed : Bool) (today : String)
    (h : ∀ x ∈ l, x.habitId ≠ habitId) :
    updateCompletionsList l habitId completed today
      = l ++ [newCompletionEntry habitId completed today] := by
  have hany : (l.any fun item => item.habitId = habitId) = false := by
    simp only [List.any_eq_false, decide_eq_true_eq]
    exact h
  simp only [updateCompletionsList, hany, Bool.false_eq_true, if_false,
    map_setCompleted_of_no_match habitId completed l h]

/-- When exactly one entry matches, the updater rewrites that entry in
place and appends nothing. -/
theorem updateCompletionsList_present (l1 l2 : List CompletionEntry)
    (e : CompletionEntry) (habitId : String) (completed : Bool)
    (today : String) (he : e.habitId = habitId)
    (h1 : ∀ x ∈ l1, x.habitId ≠ habitId)
    (h2 : ∀ x ∈ l2, x.habitId ≠ habitId) :
    updateCompletionsList (l1 ++ e :: l2) habitId completed today
      = l1 ++ setEntryCompleted e completed :: l2 := by
  have hany : ((l1 ++ e :: l2).any fun item => item.habitId = habitId)
      = true := by
    simp [List.any_append, List.any_cons, he]
  simp only [updateCompletionsList, hany, if_true, List.map_append,
    List.map_cons, if_pos he,
    map_setCompleted_of_no_match habitId completed l1 h1,
    map_setCompleted_of_no_match habitId completed l2 h2]

/-! ## Claim theorems on the optimistic toggle -/

/-- C1: when the network call fails, the error handler restores the
today-completions cache to the exact snapshot captured immediately before
the optimistic write — for every cache value, habit id and desired flag,
the post-rollback cache equals the pre-toggle cache. -/
theorem rollback_restores_snapshot (cache : Option (List CompletionEntry))
    (habitId : String) (completed : Bool) (today : String) :
    toggleThenFail cache habitId completed today = cache := by
  cases cache <;> rfl

/-- C2: the optimistic update either overwrites the matching entry's
`completed` field in place (when an entry for the habit exists, unique as
the UI assumes) or appends `{habitId, completion: {completed, date: today}}`
at the end (when none exists). -/
theorem optimistic_update_spec (habitId : String) (completed : Bool)
    (today : String) :
    (∀ (l1 l2 : List CompletionEntry) (e : CompletionEntry),
      e.habitId = habitId →
      (∀ x ∈ l1, x.habitId ≠ habitId) →
      (∀ x ∈ l2, x.habitId ≠ habitId) →
      updateCompletionsList (l1 ++ e :: l2) habitId completed today
        = l1 ++ setEntryCompleted e completed :: l2)
    ∧ (∀ l : List CompletionEntry,
      (∀ x ∈ l, x.habitId ≠ habitId) →
      updateCompletionsList l habitId completed today
        = l ++ [newCompletionEntry habitId completed today]) :=
  ⟨fun l1 l2 e he h1 h2 =>
    updateCompletionsList_present l1 l2 e habitId completed today he h1 h2,
   fun l h => updateCompletionsList_absent l habitId completed today h⟩

/-- C2 witness: overwriting the single matching entry of a two-entry list,
and appending to a list with no matching entry. -/
theorem optimistic_update_spec_witness :
    updateCompletionsList
        [{ habitId := "a", completion := none },
         { habitId := "b",
           completion := some { completed := false, date := some ("2024-01-01"),
                                value := none, notes := none } }]
        "b" true ("2024-01-01")
      = [{ habitId := "a", completion := none },
         setEntryCompleted
           { habitId := "b",
             completion := some { completed := false, date := some ("2024-01-01"),
                                  value := none, notes := none } } true]
    ∧ updateCompletionsList [{ habitId := "a", completion := none }]
        "c" true ("2024-01-01")
      = [{ habitId := "a", completion := none },
         newCompletionEntry ("c") true ("2024-01-01")] :=
  ⟨(optimistic_update_spec ("b") true ("2024-01-01")).1
      [{ habitId := "a", completion := none }] []
      { habitId := "b",
        completion := some { completed := false, date := some ("2024-01-01"),
                             value := none, notes := none } }
      rfl (by decide) (by decide),
   (optimistic_update_spec ("c") true ("2024-01-01")).2
      [{ habitId := "a", completion := none }] (by decide)⟩

/-- C10: the optimistic update touches at most the matching entry — every
entry with a different habit id keeps its value and its position — and an
absent (`undefined`) cache is returned unchanged with nothing appended. -/
theorem optimistic_update_frame (habitId : String) (completed : Bool)
    (today : String) :
    updateCompletionsCache none habitId completed today = none
    ∧ ∀ (l : List CompletionEntry) (i : Nat) (hi : i < l.length),
        (l.get ⟨i, hi⟩).habitId ≠ habitId →
        ∃ hj : i < (updateCompletionsList l habitId completed today).length,
          (updateCompletionsList l habitId completed today).get ⟨i, hj⟩
            = l.get ⟨i, hi⟩ := by
  refine ⟨rfl, ?_⟩
  intro l i hi hne
  have hmaplen :
      (l.map fun item =>
        if item.habitId = habitId then setEntryCompleted item completed
        else item).length = l.length := List.length_map l _
  have hdecomp : ∃ tail,
      updateCompletionsList l habitId completed today
        = (l.map fun item =>
            if item.habitId = habitId then setEntryCompleted item completed
            else item) ++ tail := by
    simp only [updateCompletionsList]
    split
    · exact ⟨[], (List.append_nil _).symm⟩
    · exact ⟨[newCompletionEntry habitId completed today], rfl⟩
  obtain ⟨tail, htail⟩ := hdecomp
  rw [htail]
  have hi2 : i < (l.map fun item =>
      if item.habitId = habitId then setEntryCompleted item completed
      else item).length := by simpa [hmaplen] using hi
  have hne2 : l[i].habitId ≠ habitId := by
    simpa [List.get_eq_getElem] using hne
  refine ⟨by simp [List.length_append, hmaplen]; omega, ?_⟩
  simp [List.get_eq_getElem, List.getElem_append_left hi2,
    List.getElem_map, if_neg hne2]

/-- C10 witness: a non-matching entry at index 0 is unchanged, and the
absent cache is unchanged. -/
theorem optimistic_update_frame_witness :
    updateCompletionsCache none ("b") true ("2024-01-01") = none
    ∧ (updateCompletionsList [{ habitId := "a", completion := none }]
        "b" true ("2024-01-01")).get ⟨0, by decide⟩
      = { habitId := "a", completion := none } :=
  ⟨(optimistic_update_frame ("b") true ("2024-01-01")).1,
   ((optimistic_update_frame ("b") true ("2024-01-01")).2
      [{ habitId := "a", completion := none }] 0 (by decide)
      (by decide)).2⟩

/-! ## Execution order of one toggle (for the confetti side effect) -/

/-- Observable steps of one completion-toggle execution, in program order:
the optimistic cache write and the confetti call happen inside `onMutate`
(HabitsPage.tsx lines 164-205) before any network response; the network
result arrives later; `onError` rolls back on failure; `onSettled`
invalidates the affected keys. -/
inductive ToggleEvent where
  | cancelRefetch
  | optimisticWrite
  | confetti
  | networkResult (ok : Bool)
  | rollback
  | invalidate
deriving DecidableEq, Repr

/-- The event trace of one toggle with desired flag `completed` whose
network call resolves with `netOk` (HabitsPage.tsx lines 158-218):
confetti fires inside `onMutate` exactly when `completed` is true
(lines 199-202), unconditionally on the later network outcome. -/
def toggleEvents (completed netOk : Bool) : List ToggleEvent :=
  [ToggleEvent.cancelRefetch, ToggleEvent.optimisticWrite]
    ++ (if completed then [ToggleEvent.confetti] else [])
    ++ [ToggleEvent.networkResult netOk]
    ++ (if netOk then [] else [ToggleEvent.rollback])
    ++ [ToggleEvent.invalidate]

/-- C9: confetti fires exactly when the desired flag is true, strictly
before the network result (hence not gated on server confirmation), and
in particular it also fires on executions that fail and roll back. -/
theorem confetti_fires_optimistically (completed netOk : Bool) :
    (ToggleEvent.confetti ∈ toggleEvents completed netOk ↔ completed = true)
    ∧ (completed = true →
        (toggleEvents completed netOk).indexOf ToggleEvent.confetti
          < (toggleEvents completed netOk).indexOf
              (ToggleEvent.networkResult netOk))
    ∧ (completed = true → netOk = false →
        ToggleEvent.confetti ∈ toggleEvents completed netOk
        ∧ ToggleEvent.rollback ∈ toggleEvents completed netOk) := by
  cases completed <;> cases netOk <;> decide

/-- C9 witness: a completing toggle whose network call fails still has
confetti in its trace, together with the rollback. -/
theorem confetti_fires_optimistically_witness :
    ToggleEvent.confetti ∈ toggleEvents true false
    ∧ ToggleEvent.rollback ∈ toggleEvents true false :=
  (confetti_fires_optimistically true false).2.2 rfl rfl

/-! ## API client token handling (`ApiClient` in the api module) -/

/-- The token state of the API client: the in-memory `this.token` field and
the `auth_token` entry persisted in browser local storage. -/
structure ApiClientState where
  token : Option String
  storedToken : Option String
deriving DecidableEq, Repr

/-- Embedding of `ApiClient.removeToken` (api module lines 42-49): clears
the in-memory token and removes the persisted copy. -/
def removeToken (_s : ApiClientState) : ApiClientState :=
  { token := none, storedToken := none }

/-- Embedding of the response handling in `ApiClient.request` (api module
lines 82-101): `response.ok` is status 200-299; `dataMessage` is the parsed
body's `message` field, with the fallback object `{message: "Server error"}`
already substituted when the body is not JSON.  On a non-ok response the
client removes the token for status 401 or 403 and then throws the body's
message, with "An error occurred" as the final fallback. -/
def handleResponse (s : ApiClientState) (status : Nat)
    (dataMessage : Option String) : ApiClientState × Except String Unit :=
  if 200 ≤ status ∧ status ≤ 299 then
    (s, Except.ok ())
  else
    let s1 := if status = 401 ∨ status = 403 then removeToken s else s
    (s1, Except.error (dataMessage.getD ("An error occurred")))

/-- C8: a 401 or 403 response clears both the in-memory token and the
persisted copy and then throws; no other non-2xx status removes the
token. -/
theorem auth_error_removes_token (s : ApiClientState) (status : Nat)
    (dataMessage : Option String) :
    (status = 401 ∨ status = 403 →
      handleResponse s status dataMessage
        = ({ token := none, storedToken := none },
           Except.error (dataMessage.getD ("An error occurred"))))
    ∧ (¬ (200 ≤ status ∧ status ≤ 299) → ¬ (status = 401 ∨ status = 403) →
      (handleResponse s status dataMessage).1 = s) := by
  constructor
  · intro h
    have hnotok : ¬ (200 ≤ status ∧ status ≤ 299) := by omega
    simp [handleResponse, hnotok, h, removeToken]
  · intro h1 h2
    simp [handleResponse, h1, h2]

/-- C8 witness: a 401 response with a populated token state. -/
theorem auth_error_removes_token_witness :
    handleResponse { token := some ("jwt"), storedToken := some ("jwt") } 401
        (some ("Unauthorized"))
      = ({ token := none, storedToken := none },
         Except.error ("Unauthorized")) :=
  (auth_error_removes_token
    { token := some ("jwt"), storedToken := some ("jwt") } 401
    (some ("Unauthorized"))).1 (Or.inl rfl)

/-! ## Calendar dates: `today` on the habits page

`HabitsPage.tsx` line 99 computes `today` as
`new Date().toISOString().split('T')[0]`, i.e. the UTC calendar date of the
current instant. -/

/-- Civil (proleptic Gregorian) date from a day count since 1970-01-01,
the date arithmetic underlying `Date.prototype.toISOString` for post-epoch
instants.  Returns (year, month, day). -/
def civilFromDays (z0 : Nat) : Nat × Nat × Nat :=
  let z := z0 + 719468
  let era := z / 146097
  let doe := z % 146097
  let yoe := (doe - doe / 1460 + doe / 36524 - doe / 146096) / 365
  let y := yoe + era * 400
  let doy := doe - (365 * yoe + yoe / 4 - yoe / 100)
  let mp := (5 * doy + 2) / 153
  let d := doy - (153 * mp + 2) / 5 + 1
  let m := if mp < 10 then mp + 3 else mp - 9
  (if m ≤ 2 then y + 1 else y, m, d)

/-- Two-digit zero padding used by ISO-8601 month and day fields. -/
def pad2 (n : Nat) : String :=
  if n < 10 then ("0") ++ toString n else toString n

/-- The date part of `Date.prototype.toISOString` applied to an instant
given in epoch milliseconds: the UTC calendar date `YYYY-MM-DD`. -/
def isoDateString (ms : Nat) : String :=
  let c := civilFromDays (ms / 86400000)
  toString c.1 ++ "-" ++ pad2 c.2.1 ++ "-" ++ pad2 c.2.2

/-- Embedding of `today` (HabitsPage.tsx line 99):
`new Date().toISOString().split('T')[0]` at the instant `nowMs`. -/
def jsToday (nowMs : Nat) : String :=
  isoDateString nowMs

/-- Modelled from the spec: the "client-local calendar date" of an instant,
for a client whose local timezone is `tzOffsetMinutes` minutes ahead of
UTC.  The repository computes no local calendar date (the code uses
`toISOString`), so this definition follows the spec's words: the calendar
date of the instant shifted by the local offset. -/
def clientLocalDate (nowMs : Nat) (tzOffsetMinutes : Int) : String :=
  isoDateString (Int.toNat ((nowMs : Int) + tzOffsetMinutes * 60000))

/-- The request body sent by the completion mutation
(`api.completeHabit(habitId, {date: today, completed})`, HabitsPage.tsx
lines 159-163). -/
structure CompleteHabitBody where
  date : String
  completed : Bool
deriving DecidableEq, Repr

/-- The body the mutation function builds from `today` and the desired
flag. -/
def completeHabitBody (today : String) (completed : Bool) :
    CompleteHabitBody :=
  { date := today, completed := completed }

/-- C3 counterexample: at 2024-01-01T23:30:00Z, a client two hours ahead of
UTC (offset +120 minutes) is already on its local 2024-01-02, yet the date
the toggle sends is the UTC date 2024-01-01 — so the sent date does not
equal the client-local calendar date. -/
theorem completion_date_not_client_local :
    ¬ ((completeHabitBody (jsToday 1704151800000) true).date
        = clientLocalDate 1704151800000 120) := by
  decide

/-- C3 amended: the date sent in the completion request and stored in an
appended optimistic cache entry is the UTC calendar date of the toggle
instant (the `toISOString` date), not the client-local one. -/
theorem completion_date_is_utc (nowMs : Nat) (l : List CompletionEntry)
    (habitId : String) (completed : Bool)
    (habsent : ∀ x ∈ l, x.habitId ≠ habitId) :
    (completeHabitBody (jsToday nowMs) completed).date = isoDateString nowMs
    ∧ updateCompletionsList l habitId completed (jsToday nowMs)
        = l ++ [newCompletionEntry habitId completed (isoDateString nowMs)]
    ∧ (newCompletionEntry habitId completed (isoDateString nowMs)).completion
        = some { completed := completed, date := some (isoDateString nowMs),
                 value := none, notes := none } :=
  ⟨rfl,
   updateCompletionsList_absent l habitId completed (jsToday nowMs) habsent,
   rfl⟩

/-- C3 amended witness: a toggle at 2024-01-01T23:30:00Z against an empty
cache list sends and stores the UTC date. -/
theorem completion_date_is_utc_witness :
    (completeHabitBody (jsToday 1704151800000) true).date
        = isoDateString 1704151800000
    ∧ updateCompletionsList [] "h1" true (jsToday 1704151800000)
        = [newCompletionEntry ("h1") true (isoDateString 1704151800000)] :=
  ⟨(completion_date_is_utc 1704151800000 [] "h1" true (by simp)).1,
   (completion_date_is_utc 1704151800000 [] "h1" true (by simp)).2.1⟩

end HabitFrontend
